import Mathlib

/-!
Shallow embedding of the LifeKit marketplace backend (Express + Supabase)
booking / wallet / review / schedule logic, and a verification of the
specification's claims about it.

The repository ships two concatenated revisions of `bookingRoutes.js`
(separated in the source by a document marker); where the two revisions
differ we embed both, suffixed `V1` (the first revision in the file) and
`V2` (the second).  Functions whose code is identical in both revisions
are embedded once.

Modelling conventions:
  * Supabase tables are Lean `List`s of rows; `.eq(..).single()` is
    `List.find?`, `.update(..).eq(..)` is `List.map` over the table,
    `.insert(..)` appends at the end of the list.
  * JS numbers used for money/ratings are modelled by `ℚ` (the handlers
    only move decimal amounts around; `parseFloat` of a numeric column is
    the identity in this model).
  * Row ids and timestamps that the database generates are passed to the
    embedded handler as explicit arguments (`newId`, `now`).
  * A JS crash inside a handler (e.g. reading `.balance` of a `null`
    wallet) hits the surrounding `try/catch` and answers HTTP 500; the
    writes already performed before the crash are kept, exactly as in the
    real system.
-/

/-- Booking lifecycle status (`status` column of `bookings`). -/
inductive BookingStatus
  | pending
  | confirmed
  | cancelled
  | completed
deriving DecidableEq, Repr

/-- A row of the `wallets` table. -/
structure Wallet where
  id : Nat
  user_id : Nat
  balance : ℚ
deriving DecidableEq, Repr

/-- A row of the `transactions` table. -/
structure Txn where
  wallet_id : Nat
  type : String
  amount : ℚ
  status : String
  description : String
  stripe_payment_id : Option Nat := none
deriving DecidableEq, Repr

/-- A calendar instant, split the way the schedule endpoint consumes it:
an (abstract) calendar day and the minute of that day. -/
structure Instant where
  day : Nat
  minute : Nat
deriving DecidableEq, Repr

/-- A row of the `bookings` table. -/
structure Booking where
  id : Nat
  client_id : Nat
  provider_id : Nat
  service_id : Nat
  scheduled_time : Instant
  location_details : String
  total_price : ℚ
  service_type : Option String := none
  comments : Option String := none
  status : BookingStatus
  client_confirmed : Bool
  provider_confirmed : Bool
  duration_hours : Option Nat := none
  pricing_type : Option String := none
  created_at : Nat := 0
deriving DecidableEq, Repr

/-- A row of the `notifications` table. -/
structure Notification where
  user_id : Nat
  title : String
  message : String
  type : String
  reference_id : Nat
  is_read : Bool := false
deriving DecidableEq, Repr

/-- A row of the `services` table (the fields this core reads/writes). -/
structure Service where
  id : Nat
  provider_id : Nat
  price : ℚ
  title : String
  average_rating : ℚ := 0
  total_reviews : Nat := 0
deriving DecidableEq, Repr

/-- A row of the `reviews` table. -/
structure Review where
  booking_id : Nat
  service_id : Nat
  provider_id : Nat
  reviewer_id : Nat
  rating : ℚ
  comment : String
deriving DecidableEq, Repr

/-- A row of the `profiles` table (fields used by the joins). -/
structure Profile where
  id : Nat
  full_name : String
deriving DecidableEq, Repr

/-- A row of the `events` table (fields used by ticket purchase). -/
structure Event where
  id : Nat
  title : String
deriving DecidableEq, Repr

/-- A row of the `event_tickets` table. -/
structure Ticket where
  id : Nat
  user_id : Nat
  event_id : Nat
  quantity : Nat
  total_price : ℚ
  status : String
deriving DecidableEq, Repr

/-- The persistent database state the handlers read and write. -/
structure DB where
  wallets : List Wallet := []
  bookings : List Booking := []
  transactions : List Txn := []
  notifications : List Notification := []
  services : List Service := []
  reviews : List Review := []
  profiles : List Profile := []
  events : List Event := []
  event_tickets : List Ticket := []
deriving DecidableEq, Repr

/-- An HTTP response: status code plus the `message`/`error` string the
handler puts in the JSON body (empty when none). -/
structure Resp where
  status : Nat
  body : String
deriving DecidableEq, Repr

/-- `.from('wallets').select('*').eq('user_id', uid).single()` -/
def findWalletByUser (db : DB) (uid : Nat) : Option Wallet :=
  db.wallets.find? (fun w => w.user_id == uid)

/-- `.from('wallets').update({balance}).eq('id', wid)` -/
def setWalletBalance (db : DB) (wid : Nat) (b : ℚ) : DB :=
  { db with wallets :=
      db.wallets.map (fun w => if w.id == wid then { w with balance := b } else w) }

/-- `.from('bookings').select('*').eq('id', id).single()` -/
def findBooking (db : DB) (id : Nat) : Option Booking :=
  db.bookings.find? (fun b => b.id == id)

/-- `.from('bookings').update(f).eq('id', id)` -/
def updateBooking (db : DB) (id : Nat) (f : Booking → Booking) : DB :=
  { db with bookings :=
      db.bookings.map (fun b => if b.id == id then f b else b) }

/-- `.from('transactions').insert(t)` -/
def insertTxn (db : DB) (t : Txn) : DB :=
  { db with transactions := db.transactions ++ [t] }

/-- `.from('notifications').insert(n)` (also used for the two-element
batch insert, once per element, in order). -/
def insertNotification (db : DB) (n : Notification) : DB :=
  { db with notifications := db.notifications ++ [n] }

/-- `.from('bookings').insert(b)` -/
def insertBooking (db : DB) (b : Booking) : DB :=
  { db with bookings := db.bookings ++ [b] }

/-- `.from('services').select(..).eq('id', sid).single()` -/
def findService (db : DB) (sid : Nat) : Option Service :=
  db.services.find? (fun s => s.id == sid)

/-- `POST /bookings`, first revision.  Request fields arrive as `Option`s
(`none` = absent); `!total_price` in JS is also true for the number `0`,
which the validation branch reflects.  `insertFails` models the database
failing the booking insert; `newId`/`now` are the database-generated id
and `created_at` of the inserted row. -/
def createBookingV1 (db : DB) (clientId : Nat) (service_id : Option Nat)
    (scheduled_time : Option Instant) (location_details : String)
    (total_price : Option ℚ) (insertFails : Bool) (newId now : Nat) :
    DB × Resp :=
  match service_id, scheduled_time, total_price with
  | some sid, some st, some tp =>
    if tp == 0 then
      (db, ⟨400, "Service ID, scheduled time, and price are required."⟩)
    else
      match findService db sid with
      | none => (db, ⟨404, "Service not found or not currently active."⟩)
      | some service =>
        match findWalletByUser db clientId with
        | none => (db, ⟨402, "Insufficient wallet balance. Please add money."⟩)
        | some clientWallet =>
          if clientWallet.balance < tp then
            (db, ⟨402, "Insufficient wallet balance. Please add money."⟩)
          else
            let newBalance := clientWallet.balance - tp
            let db1 := setWalletBalance db clientWallet.id newBalance
            if insertFails then
              -- "Refund Logic (omitted for brevity, but same as before)":
              -- the comment notwithstanding, no refund is performed here
              (db1, ⟨500, "Failed to create booking."⟩)
            else
              let booking : Booking :=
                { id := newId, client_id := clientId,
                  provider_id := service.provider_id, service_id := sid,
                  scheduled_time := st, location_details := location_details,
                  total_price := tp, status := BookingStatus.pending,
                  client_confirmed := false, provider_confirmed := false,
                  created_at := now }
              let db2 := insertBooking db1 booking
              let db3 := insertNotification db2
                { user_id := service.provider_id,
                  title := "New Booking Request",
                  message := "Someone wants to book " ++ service.title ++
                    " for $" ++ toString tp ++ ". Check your requests!",
                  type := "booking_request", reference_id := newId,
                  is_read := false }
              (db3, ⟨201, "Booking request sent and funds held successfully."⟩)
  | _, _, _ => (db, ⟨400, "Service ID, scheduled time, and price are required."⟩)

/-- `POST /bookings`, second revision.  Validation now only rejects an
absent `total_price` (`total_price === undefined`), so a zero price is
accepted; the insert carries `service_type`/`comments`; the
insert-failure branch writes the originally fetched balance back
(refund); the provider notification has a skill-swap variant. -/
def createBookingV2 (db : DB) (clientId : Nat) (service_id : Option Nat)
    (scheduled_time : Option Instant) (location_details : String)
    (total_price : Option ℚ) (service_type comments : Option String)
    (insertFails : Bool) (newId now : Nat) : DB × Resp :=
  match service_id, scheduled_time, total_price with
  | some sid, some st, some tp =>
    (match findService db sid with
    | none => (db, ⟨404, "Service not found or not currently active."⟩)
    | some service =>
      match findWalletByUser db clientId with
      | none => (db, ⟨402, "Insufficient wallet balance. Please add money."⟩)
      | some clientWallet =>
        if clientWallet.balance < tp then
          (db, ⟨402, "Insufficient wallet balance. Please add money."⟩)
        else
          let newBalance := clientWallet.balance - tp
          let db1 := setWalletBalance db clientWallet.id newBalance
          if insertFails then
            -- refund: write back the balance fetched before the debit
            let refundBalance := clientWallet.balance
            let db2 := setWalletBalance db1 clientWallet.id refundBalance
            (db2, ⟨500, "Failed to create booking."⟩)
          else
            let booking : Booking :=
              { id := newId, client_id := clientId,
                provider_id := service.provider_id, service_id := sid,
                scheduled_time := st, location_details := location_details,
                total_price := tp, service_type := service_type,
                comments := comments, status := BookingStatus.pending,
                client_confirmed := false, provider_confirmed := false,
                created_at := now }
            let db2 := insertBooking db1 booking
            let isSkillSwap := tp == 0
            let db3 := insertNotification db2
              { user_id := service.provider_id,
                title := if isSkillSwap then "New Skill Swap Request"
                         else "New Booking Request",
                message := if isSkillSwap then
                    "Someone wants to swap skills with you for " ++
                      service.title ++ ". Check requests!"
                  else
                    "Someone wants to book " ++ service.title ++ " for $" ++
                      toString tp ++ ".",
                type := "booking_request", reference_id := newId,
                is_read := false }
            (db3, ⟨201, "Booking request sent and funds held successfully."⟩))
  | _, _, _ => (db, ⟨400, "Service ID, scheduled time, and price are required."⟩)

/-- `PUT /bookings/:id/status` (identical logic in both revisions).
The booking is fetched by id AND provider, with no condition on its
current status; a `cancelled` decision refunds the client, logs a refund
transaction and notifies, a `confirmed` decision only notifies.  A
missing client wallet in the refund branch crashes into the catch (500)
after the status has already been written. -/
def decideBooking (db : DB) (id : Nat) (statusReq : String)
    (providerId : Nat) : DB × Resp :=
  if !(statusReq == "confirmed" || statusReq == "cancelled") then
    (db, ⟨400, "Invalid status."⟩)
  else
    match db.bookings.find? (fun b => b.id == id && b.provider_id == providerId) with
    | none => (db, ⟨404, "Booking not found or unauthorized."⟩)
    | some booking =>
      let newStatus := if statusReq == "cancelled" then BookingStatus.cancelled
                       else BookingStatus.confirmed
      let db1 := updateBooking db id (fun b => { b with status := newStatus })
      if statusReq == "cancelled" then
        match findWalletByUser db1 booking.client_id with
        | none => (db1, ⟨500, "Internal server error."⟩)
        | some clientWallet =>
          let refundBalance := clientWallet.balance + booking.total_price
          let db2 := setWalletBalance db1 clientWallet.id refundBalance
          let db3 := insertTxn db2
            { wallet_id := clientWallet.id, type := "refund",
              amount := booking.total_price, status := "success",
              description := "Refund for Booking #" ++ toString booking.id }
          let db4 := insertNotification db3
            { user_id := booking.client_id, title := "Booking Declined",
              message := "The provider declined. Your funds have been refunded.",
              type := "booking_update", reference_id := id }
          (db4, ⟨200, "Booking " ++ statusReq⟩)
      else
        let db2 := insertNotification db1
          { user_id := booking.client_id, title := "Booking Confirmed!",
            message := "Your provider has accepted the booking.",
            type := "booking_update", reference_id := id }
        (db2, ⟨200, "Booking " ++ statusReq⟩)

/-- `PUT /bookings/:id/complete`, first revision.  Fetches the booking by
id only, sets the caller's confirmation flag (client first, then
provider, else 403) with NO condition on the booking status, and — if
both flags are now set — marks the booking completed, credits the
provider unconditionally, logs an `earning` transaction and notifies
both parties.  The row returned by the flag update is the fetched row
with the flag applied. -/
def completeBookingV1 (db : DB) (id : Nat) (userId : Nat) : DB × Resp :=
  match findBooking db id with
  | none => (db, ⟨404, "Booking not found."⟩)
  | some booking =>
    let flagUpdate : Option (Booking → Booking) :=
      if userId == booking.client_id then
        some (fun b => { b with client_confirmed := true })
      else if userId == booking.provider_id then
        some (fun b => { b with provider_confirmed := true })
      else none
    match flagUpdate with
    | none => (db, ⟨403, "Unauthorized action."⟩)
    | some f =>
      let db1 := updateBooking db id f
      let updatedBooking := f booking
      if updatedBooking.client_confirmed && updatedBooking.provider_confirmed then
        let db2 := updateBooking db1 id
          (fun b => { b with status := BookingStatus.completed })
        match findWalletByUser db2 booking.provider_id with
        | none => (db2, ⟨500, "Internal server error."⟩)
        | some providerWallet =>
          let newBalance := providerWallet.balance + booking.total_price
          let db3 := setWalletBalance db2 providerWallet.id newBalance
          let db4 := insertTxn db3
            { wallet_id := providerWallet.id, type := "earning",
              amount := booking.total_price, status := "success",
              description := "Earning from Booking #" ++ toString id }
          let db5 := insertNotification db4
            { user_id := booking.client_id, title := "Service Completed",
              message := "Booking closed.", type := "booking_completed",
              reference_id := id }
          let db6 := insertNotification db5
            { user_id := booking.provider_id, title := "Payment Received",
              message := "Funds released to your wallet.",
              type := "booking_completed", reference_id := id }
          (db6, ⟨200, "Booking fully completed. Funds released to provider."⟩)
      else
        (db1, ⟨200, "Confirmation recorded. Waiting for the other party to confirm."⟩)

/-- `PUT /bookings/:id/complete`, second revision.  Same shape as the
first revision, but the provider credit and `earning` transaction are
guarded by `booking.total_price > 0`; the notification texts differ.
There is still no condition on the booking's status anywhere. -/
def completeBookingV2 (db : DB) (id : Nat) (userId : Nat) : DB × Resp :=
  match findBooking db id with
  | none => (db, ⟨404, "Booking not found."⟩)
  | some booking =>
    let flagUpdate : Option (Booking → Booking) :=
      if userId == booking.client_id then
        some (fun b => { b with client_confirmed := true })
      else if userId == booking.provider_id then
        some (fun b => { b with provider_confirmed := true })
      else none
    match flagUpdate with
    | none => (db, ⟨403, "Unauthorized action."⟩)
    | some f =>
      let db1 := updateBooking db id f
      let updatedBooking := f booking
      if updatedBooking.client_confirmed && updatedBooking.provider_confirmed then
        let db2 := updateBooking db1 id
          (fun b => { b with status := BookingStatus.completed })
        if booking.total_price > 0 then
          match findWalletByUser db2 booking.provider_id with
          | none => (db2, ⟨500, "Internal server error."⟩)
          | some providerWallet =>
            let newBalance := providerWallet.balance + booking.total_price
            let db3 := setWalletBalance db2 providerWallet.id newBalance
            let db4 := insertTxn db3
              { wallet_id := providerWallet.id, type := "earning",
                amount := booking.total_price, status := "success",
                description := "Earning from Booking #" ++ toString id }
            let db5 := insertNotification db4
              { user_id := booking.client_id, title := "Service Completed",
                message := "Booking closed successfully.",
                type := "booking_completed", reference_id := id }
            let db6 := insertNotification db5
              { user_id := booking.provider_id, title := "Job Completed",
                message := "Funds/Swap recorded successfully.",
                type := "booking_completed", reference_id := id }
            (db6, ⟨200, "Booking fully completed. Funds released."⟩)
        else
          let db5 := insertNotification db2
            { user_id := booking.client_id, title := "Service Completed",
              message := "Booking closed successfully.",
              type := "booking_completed", reference_id := id }
          let db6 := insertNotification db5
            { user_id := booking.provider_id, title := "Job Completed",
              message := "Funds/Swap recorded successfully.",
              type := "booking_completed", reference_id := id }
          (db6, ⟨200, "Booking fully completed. Funds released."⟩)
      else
        (db1, ⟨200, "Confirmation recorded. Waiting for the other party."⟩)

/-- `getOrCreateWallet` from `walletRoutes.js`: return the user's wallet,
creating it with balance 0 if absent (`newWalletId` is the generated
id).  The Stripe customer provisioning and the unique-violation retry
branch have no observable effect in this sequential model. -/
def getOrCreateWallet (db : DB) (userId : Nat) (newWalletId : Nat) :
    DB × Wallet :=
  match findWalletByUser db userId with
  | some w => (db, w)
  | none =>
    let w : Wallet := { id := newWalletId, user_id := userId, balance := 0 }
    ({ db with wallets := db.wallets ++ [w] }, w)

/-- `POST /wallet/withdraw`: the only validation is
`wallet.balance < amount`; there is no `amount > 0` check.  On success
the balance is reduced by `amount` and one `withdrawal` transaction of
amount `-amount` is logged. -/
def withdraw (db : DB) (userId : Nat) (amount : ℚ) (newWalletId : Nat) :
    DB × Resp :=
  let res := getOrCreateWallet db userId newWalletId
  let db0 := res.1
  let wallet := res.2
  if wallet.balance < amount then
    (db0, ⟨400, "Insufficient funds"⟩)
  else
    let newBalance := wallet.balance - amount
    let db1 := setWalletBalance db0 wallet.id newBalance
    let db2 := insertTxn db1
      { wallet_id := wallet.id, type := "withdrawal", amount := -amount,
        status := "success", description := "Withdrawal Request" }
    (db2, ⟨200, "Withdrawal initiated successfully."⟩)

/-- The Stripe payment-intent data `POST /wallet/confirm-deposit` reads
back from the payment processor (`amount` is in cents). -/
structure PaymentIntent where
  id : Nat
  status : String
  amount : ℚ
  walletId : Nat
deriving DecidableEq, Repr

/-- `POST /wallet/confirm-deposit`: on a succeeded intent, skip if a
transaction with this `stripe_payment_id` already exists (replay guard),
otherwise insert one `deposit` transaction and then add the amount to
the wallet balance.  A missing wallet row crashes into the catch (500)
after the transaction has already been inserted. -/
def confirmDeposit (db : DB) (pi : PaymentIntent) : DB × Resp :=
  if pi.status == "succeeded" then
    let amountUSD := pi.amount / 100
    match db.transactions.find? (fun t => t.stripe_payment_id == some pi.id) with
    | some _ => (db, ⟨200, "Transaction already processed"⟩)
    | none =>
      let db1 := insertTxn db
        { wallet_id := pi.walletId, type := "deposit", amount := amountUSD,
          status := "success", description := "Deposit via Card",
          stripe_payment_id := some pi.id }
      match db1.wallets.find? (fun w => w.id == pi.walletId) with
      | none => (db1, ⟨500, "Failed to confirm deposit."⟩)
      | some wallet =>
        (setWalletBalance db1 pi.walletId (wallet.balance + amountUSD),
         ⟨200, "Wallet funded successfully!"⟩)
  else (db, ⟨400, "Payment not successful yet."⟩)

/-- `POST /admin/events/buy-ticket` from `eventRoutes.js`.  JS falsiness
makes a zero `event_id`/`quantity`/`total_price` fail validation like an
absent one.  A missing event makes the inserted ticket's `events` join
null, so the transaction-description read crashes into the catch (500)
with the wallet already debited and the ticket already inserted. -/
def buyTicket (db : DB) (userId : Nat) (event_id quantity : Option Nat)
    (total_price : Option ℚ) (newTicketId : Nat) : DB × Resp :=
  match event_id, quantity, total_price with
  | some eid, some qty, some tp =>
    if eid == 0 || qty == 0 || tp == 0 then
      (db, ⟨400, "Missing ticket details"⟩)
    else
      match findWalletByUser db userId with
      | none => (db, ⟨402, "Insufficient wallet balance."⟩)
      | some wallet =>
        if wallet.balance < tp then
          (db, ⟨402, "Insufficient wallet balance."⟩)
        else
          let newBalance := wallet.balance - tp
          let db1 := setWalletBalance db wallet.id newBalance
          let ticket : Ticket :=
            { id := newTicketId, user_id := userId, event_id := eid,
              quantity := qty, total_price := tp, status := "confirmed" }
          let db2 := { db1 with event_tickets := db1.event_tickets ++ [ticket] }
          match db2.events.find? (fun e => e.id == eid) with
          | none => (db2, ⟨500, "Transaction failed."⟩)
          | some ev =>
            let db3 := insertTxn db2
              { wallet_id := wallet.id, type := "payment", amount := tp,
                status := "success", description := "Ticket for " ++ ev.title }
            let db4 := insertNotification db3
              { user_id := userId, title := "Ticket Purchased!",
                message := "You have successfully bought " ++ toString qty ++
                  " ticket(s) for " ++ ev.title ++ ".",
                type := "event_ticket", reference_id := newTicketId }
            (db4, ⟨201, "Ticket purchased successfully!"⟩)
  | _, _, _ => (db, ⟨400, "Missing ticket details"⟩)

/-- `Number.prototype.toFixed(1)` on the exact rational quotient: round
to one decimal place, ties away from zero (the quotients here are
non-negative, where this is rounding half up). -/
def round1 (q : ℚ) : ℚ := (round (q * 10) : ℤ) / 10

/-- `POST /reviews` from `reviewRoutes.js`.  The `reviews` table has a
unique constraint on `booking_id` (the source notes the duplicate-insert
error lands in the catch block), so a duplicate submission returns 500
with nothing written.  A successful insert recomputes the service's
denormalized `average_rating` (toFixed(1) of sum/count) and
`total_reviews` (count) over ALL reviews of that service. -/
def submitReview (db : DB) (reviewer_id booking_id service_id provider_id : Nat)
    (rating : ℚ) (comment : String) : DB × Resp :=
  if db.reviews.any (fun r => r.booking_id == booking_id) then
    (db, ⟨500, "duplicate key value violates unique constraint"⟩)
  else
    let review : Review :=
      { booking_id := booking_id, service_id := service_id,
        provider_id := provider_id, reviewer_id := reviewer_id,
        rating := rating, comment := comment }
    let db1 := { db with reviews := db.reviews ++ [review] }
    let allReviews := db1.reviews.filter (fun r => r.service_id == service_id)
    let totalReviews : Nat := allReviews.length
    let sumRatings := (allReviews.map Review.rating).sum
    let newAverage := round1 (sumRatings / (totalReviews : ℚ))
    let newServices := db1.services.map (fun s =>
      if s.id == service_id then
        { s with average_rating := newAverage, total_reviews := totalReviews }
      else s)
    let db2 := { db1 with services := newServices }
    (db2, ⟨201, "Review submitted!"⟩)

/-- `b.duration_hours || 1`: JS falsiness defaults BOTH a null and a
zero `duration_hours` to 1. -/
def effectiveDuration (d : Option Nat) : Nat :=
  match d with
  | some n => if n == 0 then 1 else n
  | none => 1

/-- One element of the `schedule` array answered by
`GET /bookings/provider-schedule/:providerId` (times in minutes of the
day). -/
structure Slot where
  day : Nat
  start_time : Option Nat := none
  end_time : Option Nat := none
  blocked : Bool
deriving DecidableEq, Repr

/-- The per-booking map body of the schedule handler: an hourly booking
blocks `[start, start + duration)` on its day (`setHours` wraps the
displayed end time past midnight), anything else blocks the whole day. -/
def slotOfBooking (b : Booking) : Slot :=
  let start := b.scheduled_time
  if b.pricing_type == some "hourly" then
    { day := start.day, start_time := some start.minute,
      end_time := some ((start.minute + 60 * effectiveDuration b.duration_hours) % 1440),
      blocked := false }
  else
    { day := start.day, blocked := true }

/-- `GET /bookings/provider-schedule/:providerId`: select the provider's
bookings with status in `['confirmed', 'pending']` and map each to its
blocked slot.  A pure read: the handler performs no write. -/
def getBlockedSlots (db : DB) (providerId : Nat) : List Slot :=
  (db.bookings.filter (fun b =>
      b.provider_id == providerId &&
      (b.status == BookingStatus.confirmed || b.status == BookingStatus.pending))).map
    slotOfBooking

/-- The row shape returned by `GET /bookings/all`: every column of the
booking plus the joined client profile and service (absent rows join as
null). -/
structure AllRow where
  booking : Booking
  client_profile : Option Profile
  service : Option Service
deriving DecidableEq, Repr

/-- `order('created_at', { ascending: false })`. -/
def createdDesc (a b : Booking) : Prop := b.created_at ≤ a.created_at

instance : DecidableRel createdDesc := fun a b =>
  (inferInstance : Decidable (b.created_at ≤ a.created_at))

instance : IsTotal Booking createdDesc :=
  ⟨fun a b => (Nat.le_total b.created_at a.created_at)⟩

instance : IsTrans Booking createdDesc :=
  ⟨fun _ _ _ h h' => le_trans h' h⟩

/-- The join of one booking row for `GET /bookings/all`. -/
def joinAllRow (db : DB) (b : Booking) : AllRow :=
  { booking := b,
    client_profile := db.profiles.find? (fun p => p.id == b.client_id),
    service := db.services.find? (fun s => s.id == b.service_id) }

/-- `GET /bookings/all` (same code in both revisions): read the WHOLE
`bookings` table — the handler takes the authenticated-user slot of the
request but never consults it, and applies no `.eq` filter — joined with
client profile and service, ordered by `created_at` descending.  A pure
read. -/
def handleAllBookings (db : DB) (_user : Option Nat) : List AllRow :=
  (List.insertionSort createdDesc db.bookings).map (joinAllRow db)

/-- The express middlewares this codebase attaches to routes. -/
inductive Middleware
  | authenticateToken
  | authenticateAdmin
deriving DecidableEq, Repr

/-- Which handler body a route entry dispatches to. -/
inductive BookingHandlerTag
  | create
  | decideStatus
  | complete
  | listOwnClient
  | listOwnProvider
  | availability
  | allBookings
  | providerSchedule
deriving DecidableEq, Repr

/-- One `router.METHOD(path, [middleware,] handler)` registration. -/
structure RouteEntry where
  method : String
  path : String
  middlewares : List Middleware
  handler : BookingHandlerTag
deriving DecidableEq, Repr

/-- The registrations of the first revision of `bookingRoutes.js`, in
source order. -/
def bookingRouterV1 : List RouteEntry :=
  [ ⟨"POST", "/", [Middleware.authenticateToken], BookingHandlerTag.create⟩,
    ⟨"PUT", "/:id/status", [Middleware.authenticateToken], BookingHandlerTag.decideStatus⟩,
    ⟨"PUT", "/:id/complete", [Middleware.authenticateToken], BookingHandlerTag.complete⟩,
    ⟨"GET", "/client", [Middleware.authenticateToken], BookingHandlerTag.listOwnClient⟩,
    ⟨"GET", "/provider", [Middleware.authenticateToken], BookingHandlerTag.listOwnProvider⟩,
    ⟨"GET", "/availability/:providerId", [], BookingHandlerTag.availability⟩,
    ⟨"GET", "/bookings/all", [], BookingHandlerTag.allBookings⟩ ]

/-- The registrations of the second revision of `bookingRoutes.js`, in
source order. -/
def bookingRouterV2 : List RouteEntry :=
  [ ⟨"POST", "/", [Middleware.authenticateToken], BookingHandlerTag.create⟩,
    ⟨"PUT", "/:id/status", [Middleware.authenticateToken], BookingHandlerTag.decideStatus⟩,
    ⟨"PUT", "/:id/complete", [Middleware.authenticateToken], BookingHandlerTag.complete⟩,
    ⟨"GET", "/client", [Middleware.authenticateToken], BookingHandlerTag.listOwnClient⟩,
    ⟨"GET", "/provider", [Middleware.authenticateToken], BookingHandlerTag.listOwnProvider⟩,
    ⟨"GET", "/availability/:providerId", [], BookingHandlerTag.availability⟩,
    ⟨"GET", "/bookings/all", [], BookingHandlerTag.allBookings⟩,
    ⟨"GET", "/provider-schedule/:providerId", [], BookingHandlerTag.providerSchedule⟩ ]

/-! ## Fixtures -/

/-- A booking on which the settlement branch of Complete has already run:
status `completed`, both confirmation flags set. -/
def bookingC1 : Booking :=
  { id := 1, client_id := 10, provider_id := 20, service_id := 5,
    scheduled_time := ⟨1, 540⟩, location_details := "here",
    total_price := 50, status := BookingStatus.completed,
    client_confirmed := true, provider_confirmed := true }

/-- State just after settlement of `bookingC1`: the provider wallet has
been credited once, one `earning` transaction and the completed
notification pair exist. -/
def dbC1 : DB :=
  { wallets := [⟨1, 10, 0⟩, ⟨2, 20, 50⟩],
    bookings := [bookingC1],
    transactions := [{ wallet_id := 2, type := "earning", amount := 50,
                       status := "success",
                       description := "Earning from Booking #1" }],
    notifications :=
      [{ user_id := 10, title := "Service Completed",
         message := "Booking closed successfully.",
         type := "booking_completed", reference_id := 1 },
       { user_id := 20, title := "Job Completed",
         message := "Funds/Swap recorded successfully.",
         type := "booking_completed", reference_id := 1 }] }

/-- C1: the claim is FALSE on the code and the code contradicts the
invariant it was written to (the provider must be credited at most
once).  The settlement branch of Complete is guarded only by
`client_confirmed && provider_confirmed`, never by the status, so on a
booking whose settlement has already run a further Complete call by the
provider runs settlement again: the provider wallet is credited a second
time (50 → 100), a second `earning` transaction is appended, and the
completed notification pair is emitted again (2 → 4) — in both revisions
of the handler. -/
theorem c1_repeat_complete_credits_provider_again :
    ((completeBookingV2 dbC1 1 20).1.wallets.map Wallet.balance = [0, 100] ∧
     ((completeBookingV2 dbC1 1 20).1.transactions.filter
        (fun t => t.type == "earning")).length = 2 ∧
     ((completeBookingV2 dbC1 1 20).1.notifications.filter
        (fun n => n.type == "booking_completed")).length = 4 ∧
     (completeBookingV2 dbC1 1 20).2.status = 200) ∧
    ((completeBookingV1 dbC1 1 20).1.wallets.map Wallet.balance = [0, 100] ∧
     ((completeBookingV1 dbC1 1 20).1.transactions.filter
        (fun t => t.type == "earning")).length = 2 ∧
     (completeBookingV1 dbC1 1 20).2.status = 200) := by
  norm_num [completeBookingV1, completeBookingV2, dbC1, bookingC1,
    findWalletByUser, findBooking, updateBooking, setWalletBalance,
    insertTxn, insertNotification, List.find?_cons_of_pos,
    List.find?_cons_of_neg, List.filter]

/-- A booking the provider has already cancelled (the refund has run:
client wallet back at 100, one refund transaction, one decline
notification). -/
def dbC2 : DB :=
  { wallets := [⟨1, 10, 100⟩],
    bookings := [{ id := 1, client_id := 10, provider_id := 20,
                   service_id := 5, scheduled_time := ⟨1, 540⟩,
                   location_details := "here", total_price := 50,
                   status := BookingStatus.cancelled,
                   client_confirmed := false, provider_confirmed := false }],
    transactions := [{ wallet_id := 1, type := "refund", amount := 50,
                       status := "success",
                       description := "Refund for Booking #1" }],
    notifications := [{ user_id := 10, title := "Booking Declined",
                        message := "The provider declined. Your funds have been refunded.",
                        type := "booking_update", reference_id := 1 }] }

/-- C2: the claim is FALSE on the code and the code contradicts the
idempotency requirement it was written to.  The Decide handler fetches
the booking by id and provider only — there is no `status == pending`
condition — so re-invoking Decide(cancelled) on an already-cancelled
booking answers 200 (not 404) and refunds the client a second time:
balance 100 → 150, a second refund transaction and a second decline
notification are appended. -/
theorem c2_decide_on_cancelled_refunds_again :
    (decideBooking dbC2 1 "cancelled" 20).2.status = 200 ∧
    (decideBooking dbC2 1 "cancelled" 20).1.wallets.map Wallet.balance = [150] ∧
    ((decideBooking dbC2 1 "cancelled" 20).1.transactions.filter
       (fun t => t.type == "refund")).length = 2 ∧
    ((decideBooking dbC2 1 "cancelled" 20).1.notifications.filter
       (fun n => n.title == "Booking Declined")).length = 2 := by
  norm_num [decideBooking, dbC2, findWalletByUser, updateBooking,
    setWalletBalance, insertTxn, insertNotification,
    List.find?_cons_of_pos, List.find?_cons_of_neg, List.filter]

/-- A fresh state for booking creation: one service (id 5, provider 20)
and a client wallet (user 10) holding 100. -/
def dbCreate : DB :=
  { wallets := [⟨1, 10, 100⟩],
    services := [{ id := 5, provider_id := 20, price := 50,
                   title := "Cleaning" }] }

/-- C5: in the first revision the claim fails — the insert-failure branch
returns the 500 without crediting back the just-debited amount (its own
comment says the refund logic is merely "omitted for brevity"), so the
client balance stays at 50; the second revision does restore the balance
to 100 as the claim describes. -/
theorem c5_insert_failure_refund :
    ((createBookingV1 dbCreate 10 (some 5) (some ⟨1, 540⟩) "here" (some 50)
        true 1 0).2.status = 500 ∧
     (createBookingV1 dbCreate 10 (some 5) (some ⟨1, 540⟩) "here" (some 50)
        true 1 0).1.wallets.map Wallet.balance = [50]) ∧
    ((createBookingV2 dbCreate 10 (some 5) (some ⟨1, 540⟩) "here" (some 50)
        none none true 1 0).2.status = 500 ∧
     (createBookingV2 dbCreate 10 (some 5) (some ⟨1, 540⟩) "here" (some 50)
        none none true 1 0).1.wallets.map Wallet.balance = [100]) := by
  norm_num [createBookingV1, createBookingV2, dbCreate, findService,
    findWalletByUser, setWalletBalance, insertBooking, insertNotification,
    List.find?_cons_of_pos, List.find?_cons_of_neg]

/-- C6 counterexample: in the first revision a zero-price booking is NOT
accepted — `!total_price` is true for the number 0, so Create answers
400 "missing fields" and writes nothing. -/
theorem c6_counterexample_v1_rejects_zero_price :
    createBookingV1 dbCreate 10 (some 5) (some ⟨1, 540⟩) "here" (some 0)
        false 1 0
      = (dbCreate,
         ⟨400, "Service ID, scheduled time, and price are required."⟩) := by
  norm_num [createBookingV1, dbCreate]

/-- A wallet state for the withdrawal claim: user 10 holds 10. -/
def dbC7 : DB := { wallets := [⟨1, 10, 10⟩] }

/-- C7: the claim is FALSE on the code and the code contradicts the
wallet contract it was written to (`amount > 0` required).  The withdraw
handler validates only `balance < amount`, so a withdrawal of -5 from a
balance of 10 is accepted (200) and INCREASES the balance to 15, logging
a `withdrawal` transaction of amount 5; a withdrawal of 0 is also
accepted and logs a transaction. -/
theorem c7_negative_withdrawal_increases_balance :
    ((withdraw dbC7 10 (-5) 99).2.status = 200 ∧
     (withdraw dbC7 10 (-5) 99).1.wallets.map Wallet.balance = [15] ∧
     (withdraw dbC7 10 (-5) 99).1.transactions =
       [{ wallet_id := 1, type := "withdrawal", amount := 5,
          status := "success", description := "Withdrawal Request" }]) ∧
    ((withdraw dbC7 10 0 99).2.status = 200 ∧
     (withdraw dbC7 10 0 99).1.wallets.map Wallet.balance = [10] ∧
     (withdraw dbC7 10 0 99).1.transactions.length = 1) := by
  norm_num [withdraw, getOrCreateWallet, dbC7, findWalletByUser,
    setWalletBalance, insertTxn, List.find?_cons_of_pos,
    List.find?_cons_of_neg]

/-- A state whose only booking is `pending` with both flags unset
(provider 20, client 10, price 50), with both parties' wallets. -/
def dbC4 : DB :=
  { wallets := [⟨1, 10, 50⟩, ⟨2, 20, 0⟩],
    bookings := [{ id := 1, client_id := 10, provider_id := 20,
                   service_id := 5, scheduled_time := ⟨1, 540⟩,
                   location_details := "here", total_price := 50,
                   status := BookingStatus.pending,
                   client_confirmed := false, provider_confirmed := false }] }

/-- C4 counterexample: Complete never checks the booking status.  On a
`pending` booking a Complete call by the client succeeds with 200 and
silently sets `client_confirmed` — in both revisions — whereas the claim
says it must fail and set no flag. -/
theorem c4_counterexample_complete_on_pending_succeeds :
    ((completeBookingV2 dbC4 1 10).2 =
       ⟨200, "Confirmation recorded. Waiting for the other party."⟩ ∧
     (findBooking (completeBookingV2 dbC4 1 10).1 1).map
        Booking.client_confirmed = some true) ∧
    ((completeBookingV1 dbC4 1 10).2.status = 200 ∧
     (findBooking (completeBookingV1 dbC4 1 10).1 1).map
        Booking.client_confirmed = some true) := by
  norm_num [completeBookingV1, completeBookingV2, dbC4, findBooking,
    updateBooking, List.find?_cons_of_pos, List.find?_cons_of_neg]

/-- C3 counterexample: a successful booking creation debits the client
wallet (100 → 50) yet appends NO transaction row, in both revisions —
the transactions table stays empty, so this balance change has no
corresponding transaction record. -/
theorem c3_counterexample_create_debit_has_no_txn :
    ((createBookingV2 dbCreate 10 (some 5) (some ⟨1, 540⟩) "here" (some 50)
        none none false 1 0).2.status = 201 ∧
     (createBookingV2 dbCreate 10 (some 5) (some ⟨1, 540⟩) "here" (some 50)
        none none false 1 0).1.wallets.map Wallet.balance = [50] ∧
     (createBookingV2 dbCreate 10 (some 5) (some ⟨1, 540⟩) "here" (some 50)
        none none false 1 0).1.transactions = []) ∧
    ((createBookingV1 dbCreate 10 (some 5) (some ⟨1, 540⟩) "here" (some 50)
        false 1 0).2.status = 201 ∧
     (createBookingV1 dbCreate 10 (some 5) (some ⟨1, 540⟩) "here" (some 50)
        false 1 0).1.wallets.map Wallet.balance = [50] ∧
     (createBookingV1 dbCreate 10 (some 5) (some ⟨1, 540⟩) "here" (some 50)
        false 1 0).1.transactions = []) := by
  norm_num [createBookingV1, createBookingV2, dbCreate, findService,
    findWalletByUser, setWalletBalance, insertBooking, insertNotification,
    List.find?_cons_of_pos, List.find?_cons_of_neg]

/-- A service with one review (rating 4 for booking 1) and the matching
denormalized fields. -/
def dbC9 : DB :=
  { services := [{ id := 5, provider_id := 20, price := 30,
                   title := "Cleaning", average_rating := 4,
                   total_reviews := 1 }],
    reviews := [{ booking_id := 1, service_id := 5, provider_id := 20,
                  reviewer_id := 10, rating := 4, comment := "good" }] }

/-- C9 counterexample: a second review for the same `booking_id` is
rejected with HTTP 500 — the unique-constraint violation surfaces
through the handler's generic catch — not with the 409 Conflict the
claim states.  (The state, hence the service's `average_rating` and
`total_reviews`, is unchanged, as the claim says.) -/
theorem c9_counterexample_duplicate_review_is_500 :
    (submitReview dbC9 11 1 5 20 5 "again").2.status = 500 ∧
    (submitReview dbC9 11 1 5 20 5 "again").2.status ≠ 409 ∧
    (submitReview dbC9 11 1 5 20 5 "again").1 = dbC9 := by
  norm_num [submitReview, dbC9, List.any]

/-- A provider-20 state with one `confirmed` hourly booking at 14:00
whose `duration_hours` is 0. -/
def dbC10 : DB :=
  { bookings := [{ id := 1, client_id := 10, provider_id := 20,
                   service_id := 5, scheduled_time := ⟨1, 840⟩,
                   location_details := "here", total_price := 50,
                   status := BookingStatus.confirmed,
                   client_confirmed := false, provider_confirmed := false,
                   duration_hours := some 0,
                   pricing_type := some "hourly" }] }

/-- C10 counterexample: for an hourly booking with `duration_hours = 0`
the code's `duration_hours || 1` default blocks one hour, so the slot
ends at 15:00 (minute 900), not at `scheduled_time + duration_hours`
(14:00, minute 840) as the claim states for every hourly booking. -/
theorem c10_counterexample_zero_duration_blocks_one_hour :
    getBlockedSlots dbC10 20 = [⟨1, some 840, some 900, false⟩] ∧
    (900 : Nat) ≠ 840 + 60 * 0 := by
  decide

/-- A conditional row update commutes with `find?` on the same predicate,
provided the update preserves the predicate on matching rows (the
update-by-id pattern of every handler here). -/
theorem find?_map_update {α : Type} (p : α → Bool) (f : α → α) (l : List α)
    (hp : ∀ a, p a = true → p (f a) = true) :
    (l.map (fun a => if p a then f a else a)).find? p = (l.find? p).map f := by
  induction l with
  | nil => rfl
  | cons a l ih =>
    by_cases h : p a = true
    · simp [List.find?_cons, h, hp a h]
    · have h' : p a = false := by simpa using h
      simp [List.find?_cons, h', ih]

/-- Reading back the row written by `updateBooking` when the update
preserves the id. -/
theorem findBooking_updateBooking (db : DB) (id : Nat) (f : Booking → Booking)
    (hf : ∀ b, (f b).id = b.id) :
    findBooking (updateBooking db id f) id = (findBooking db id).map f := by
  unfold findBooking updateBooking
  exact find?_map_update (fun b => b.id == id) f db.bookings
    (fun b hb => by simpa [hf b] using hb)

/-- C4 amended: Complete checks only that the booking exists and that the
caller is one of its two parties — it never checks the status.  For a
booking in status pending, cancelled or completed whose other-party flag
is not yet set, a Complete call by the client (respectively by the
provider) answers 200 and sets that caller's confirmation flag, in both
revisions of the handler. -/
theorem c4_amended_complete_ignores_status (db : DB) (id : Nat) (b : Booking)
    (hb : findBooking db id = some b)
    (_hs : b.status = BookingStatus.pending ∨
           b.status = BookingStatus.cancelled ∨
           b.status = BookingStatus.completed) :
    (b.provider_confirmed = false →
       (completeBookingV2 db id b.client_id).2.status = 200 ∧
       findBooking (completeBookingV2 db id b.client_id).1 id =
         some { b with client_confirmed := true } ∧
       (completeBookingV1 db id b.client_id).2.status = 200 ∧
       findBooking (completeBookingV1 db id b.client_id).1 id =
         some { b with client_confirmed := true }) ∧
    (b.client_confirmed = false → b.provider_id ≠ b.client_id →
       (completeBookingV2 db id b.provider_id).2.status = 200 ∧
       findBooking (completeBookingV2 db id b.provider_id).1 id =
         some { b with provider_confirmed := true } ∧
       (completeBookingV1 db id b.provider_id).2.status = 200 ∧
       findBooking (completeBookingV1 db id b.provider_id).1 id =
         some { b with provider_confirmed := true }) := by
  constructor
  · intro hpc
    have h2 : completeBookingV2 db id b.client_id =
        (updateBooking db id (fun x => { x with client_confirmed := true }),
         ⟨200, "Confirmation recorded. Waiting for the other party."⟩) := by
      simp [completeBookingV2, hb, hpc]
    have h1 : completeBookingV1 db id b.client_id =
        (updateBooking db id (fun x => { x with client_confirmed := true }),
         ⟨200, "Confirmation recorded. Waiting for the other party to confirm."⟩) := by
      simp [completeBookingV1, hb, hpc]
    have key := findBooking_updateBooking db id
      (fun x => { x with client_confirmed := true }) (fun x => rfl)
    refine ⟨by simp [h2], ?_, by simp [h1], ?_⟩ <;>
      simp [h2, h1, key, hb]
  · intro hcc hne
    have hne' : (b.provider_id == b.client_id) = false := by
      simpa using hne
    have h2 : completeBookingV2 db id b.provider_id =
        (updateBooking db id (fun x => { x with provider_confirmed := true }),
         ⟨200, "Confirmation recorded. Waiting for the other party."⟩) := by
      simp [completeBookingV2, hb, hcc, hne']
    have h1 : completeBookingV1 db id b.provider_id =
        (updateBooking db id (fun x => { x with provider_confirmed := true }),
         ⟨200, "Confirmation recorded. Waiting for the other party to confirm."⟩) := by
      simp [completeBookingV1, hb, hcc, hne']
    have key := findBooking_updateBooking db id
      (fun x => { x with provider_confirmed := true }) (fun x => rfl)
    refine ⟨by simp [h2], ?_, by simp [h1], ?_⟩ <;>
      simp [h2, h1, key, hb]

/-- Witness for `c4_amended_complete_ignores_status` at the concrete
pending-booking state `dbC4`. -/
theorem c4_amended_witness :
    (completeBookingV2 dbC4 1 10).2.status = 200 ∧
    (completeBookingV1 dbC4 1 10).2.status = 200 := by
  have h := (c4_amended_complete_ignores_status dbC4 1
      { id := 1, client_id := 10, provider_id := 20, service_id := 5,
        scheduled_time := ⟨1, 540⟩, location_details := "here",
        total_price := 50, status := BookingStatus.pending,
        client_confirmed := false, provider_confirmed := false }
      (by decide) (Or.inl rfl)).1 rfl
  exact ⟨h.1, h.2.2.1⟩

/-- A two-party state for the zero-price (skill-swap) path: the client
(user 10) and provider (user 20) wallets hold arbitrary balances, and
service 5 belongs to the provider. -/
def dbSwap (cBal pBal : ℚ) : DB :=
  { wallets := [⟨1, 10, cBal⟩, ⟨2, 20, pBal⟩],
    services := [{ id := 5, provider_id := 20, price := 30,
                   title := "Guitar lessons" }] }

/-- C6 amended: in the SECOND revision the zero-price path behaves as the
claim describes — Create accepts `total_price = 0` (201), performs no
balance change and logs no transaction, and after both parties Complete
the booking its status is `completed` with no `earning` transaction and
both balances unchanged.  (The first revision instead rejects a
zero-price Create as a missing field, see the counterexample.) -/
theorem c6_amended_zero_price_swap_path_v2 (cBal pBal : ℚ) (h : 0 ≤ cBal) :
    ((createBookingV2 (dbSwap cBal pBal) 10 (some 5) (some ⟨1, 540⟩) "here"
        (some 0) (some "skill_swap") none false 1 0).2.status = 201 ∧
     (createBookingV2 (dbSwap cBal pBal) 10 (some 5) (some ⟨1, 540⟩) "here"
        (some 0) (some "skill_swap") none false 1 0).1.wallets.map
        Wallet.balance = [cBal, pBal] ∧
     (createBookingV2 (dbSwap cBal pBal) 10 (some 5) (some ⟨1, 540⟩) "here"
        (some 0) (some "skill_swap") none false 1 0).1.transactions = []) ∧
    ((completeBookingV2 (completeBookingV2
        (createBookingV2 (dbSwap cBal pBal) 10 (some 5) (some ⟨1, 540⟩) "here"
          (some 0) (some "skill_swap") none false 1 0).1 1 10).1 1 20).2.status
        = 200 ∧
     (findBooking (completeBookingV2 (completeBookingV2
        (createBookingV2 (dbSwap cBal pBal) 10 (some 5) (some ⟨1, 540⟩) "here"
          (some 0) (some "skill_swap") none false 1 0).1 1 10).1 1 20).1 1).map
        Booking.status = some BookingStatus.completed ∧
     (completeBookingV2 (completeBookingV2
        (createBookingV2 (dbSwap cBal pBal) 10 (some 5) (some ⟨1, 540⟩) "here"
          (some 0) (some "skill_swap") none false 1 0).1 1 10).1 1 20).1.transactions
        = [] ∧
     (completeBookingV2 (completeBookingV2
        (createBookingV2 (dbSwap cBal pBal) 10 (some 5) (some ⟨1, 540⟩) "here"
          (some 0) (some "skill_swap") none false 1 0).1 1 10).1 1 20).1.wallets.map
        Wallet.balance = [cBal, pBal]) := by
  have hlt : ¬ (cBal < 0) := not_lt.mpr h
  norm_num [createBookingV2, completeBookingV2, dbSwap, findService,
    findWalletByUser, findBooking, setWalletBalance, insertBooking,
    insertNotification, updateBooking, insertTxn, hlt,
    List.find?_cons_of_pos, List.find?_cons_of_neg]

/-- Witness for `c6_amended_zero_price_swap_path_v2` at balances 7 and 3. -/
theorem c6_amended_witness :
    (createBookingV2 (dbSwap 7 3) 10 (some 5) (some ⟨1, 540⟩) "here"
        (some 0) (some "skill_swap") none false 1 0).2.status = 201 ∧
    (completeBookingV2 (completeBookingV2
        (createBookingV2 (dbSwap 7 3) 10 (some 5) (some ⟨1, 540⟩) "here"
          (some 0) (some "skill_swap") none false 1 0).1 1 10).1 1 20).1.transactions
        = [] := by
  have h := c6_amended_zero_price_swap_path_v2 7 3 (by norm_num)
  exact ⟨h.1.1, h.2.2.2.1⟩

/-- A lone client wallet (user 10, wallet id 1). -/
def dbOneWallet (cBal : ℚ) : DB := { wallets := [⟨1, 10, cBal⟩] }

/-- A client wallet plus one event, for ticket purchase. -/
def dbTicket (cBal : ℚ) : DB :=
  { wallets := [⟨1, 10, cBal⟩], events := [⟨7, "Summer Concert"⟩] }

/-- A pending booking of the given price awaiting the provider decision,
with the client wallet. -/
def dbPending (cBal price : ℚ) : DB :=
  { wallets := [⟨1, 10, cBal⟩],
    bookings := [{ id := 1, client_id := 10, provider_id := 20,
                   service_id := 5, scheduled_time := ⟨1, 540⟩,
                   location_details := "here", total_price := price,
                   status := BookingStatus.pending,
                   client_confirmed := false, provider_confirmed := false }] }

/-- A confirmed booking the client has already confirmed complete, with
the provider wallet. -/
def dbConfirmedHalf (pBal price : ℚ) : DB :=
  { wallets := [⟨2, 20, pBal⟩],
    bookings := [{ id := 1, client_id := 10, provider_id := 20,
                   service_id := 5, scheduled_time := ⟨1, 540⟩,
                   location_details := "here", total_price := price,
                   status := BookingStatus.confirmed,
                   client_confirmed := true, provider_confirmed := false }] }

/-- C3 amended: refund on cancellation, provider credit on completion,
deposit confirmation, withdrawal and ticket purchase each append exactly
one transaction row for their balance change, but the client-wallet
debit made by booking creation appends NONE — creation changes the
balance with an empty transaction log, so the sum of a wallet's
transactions does not reconstruct its balance. -/
theorem c3_amended_txn_per_balance_change (cBal pBal price : ℚ)
    (hpos : 0 < price) (hle : price ≤ cBal) :
    ((createBookingV2 (dbSwap cBal pBal) 10 (some 5) (some ⟨1, 540⟩) "here"
        (some price) none none false 1 0).1.wallets.map Wallet.balance
        = [cBal - price, pBal] ∧
     (createBookingV2 (dbSwap cBal pBal) 10 (some 5) (some ⟨1, 540⟩) "here"
        (some price) none none false 1 0).1.transactions = []) ∧
    ((decideBooking (dbPending cBal price) 1 "cancelled" 20).1.wallets.map
        Wallet.balance = [cBal + price] ∧
     (decideBooking (dbPending cBal price) 1 "cancelled" 20).1.transactions
        = [{ wallet_id := 1, type := "refund", amount := price,
             status := "success",
             description := "Refund for Booking #1" }]) ∧
    ((completeBookingV2 (dbConfirmedHalf pBal price) 1 20).1.wallets.map
        Wallet.balance = [pBal + price] ∧
     (completeBookingV2 (dbConfirmedHalf pBal price) 1 20).1.transactions
        = [{ wallet_id := 2, type := "earning", amount := price,
             status := "success",
             description := "Earning from Booking #1" }]) ∧
    ((withdraw (dbOneWallet cBal) 10 price 99).1.wallets.map Wallet.balance
        = [cBal - price] ∧
     (withdraw (dbOneWallet cBal) 10 price 99).1.transactions
        = [{ wallet_id := 1, type := "withdrawal", amount := -price,
             status := "success", description := "Withdrawal Request" }]) ∧
    ((confirmDeposit (dbOneWallet cBal) ⟨77, "succeeded", 100 * price, 1⟩).1.wallets.map
        Wallet.balance = [cBal + price] ∧
     (confirmDeposit (dbOneWallet cBal) ⟨77, "succeeded", 100 * price, 1⟩).1.transactions
        = [{ wallet_id := 1, type := "deposit", amount := price,
             status := "success", description := "Deposit via Card",
             stripe_payment_id := some 77 }]) ∧
    ((buyTicket (dbTicket cBal) 10 (some 7) (some 2) (some price) 1).1.wallets.map
        Wallet.balance = [cBal - price] ∧
     (buyTicket (dbTicket cBal) 10 (some 7) (some 2) (some price) 1).1.transactions
        = [{ wallet_id := 1, type := "payment", amount := price,
             status := "success",
             description := "Ticket for Summer Concert" }]) := by
  have hlt : ¬ (cBal < price) := not_lt.mpr hle
  have hdiv : (100 : ℚ) * price / 100 = price :=
    mul_div_cancel_left₀ price (by norm_num)
  norm_num [createBookingV2, decideBooking, completeBookingV2, withdraw,
    confirmDeposit, buyTicket, getOrCreateWallet, dbSwap, dbPending,
    dbConfirmedHalf, dbOneWallet, dbTicket, findService, findWalletByUser,
    findBooking, setWalletBalance, insertBooking, insertNotification,
    insertTxn, updateBooking, hlt, hpos, hpos.ne', hdiv,
    List.find?_cons_of_pos, List.find?_cons_of_neg]
  decide

/-- Witness for `c3_amended_txn_per_balance_change` at balances 100/0 and
price 50. -/
theorem c3_amended_witness :
    (createBookingV2 (dbSwap 100 0) 10 (some 5) (some ⟨1, 540⟩) "here"
        (some 50) none none false 1 0).1.transactions = [] ∧
    (decideBooking (dbPending 100 50) 1 "cancelled" 20).1.transactions.length
      = 1 := by
  have h := c3_amended_txn_per_balance_change 100 0 50 (by norm_num)
    (by norm_num)
  exact ⟨h.1.2, by rw [h.2.1.2]; rfl⟩

/-- `find?`-view of the denormalized-rating update performed by
`submitReview` on the `services` table. -/
theorem find?_services_update (l : List Service) (sid : Nat) (avg : ℚ)
    (tot : Nat) :
    (l.map (fun s =>
        if s.id == sid then
          { s with average_rating := avg, total_reviews := tot }
        else s)).find? (fun s => s.id == sid)
      = (l.find? (fun s => s.id == sid)).map
          (fun s => { s with average_rating := avg, total_reviews := tot }) :=
  find?_map_update _ _ l (fun a ha => by simpa using ha)

/-- The review row `submitReview` inserts. -/
def mkReview (reviewer_id booking_id service_id provider_id : Nat)
    (rating : ℚ) (comment : String) : Review :=
  { booking_id := booking_id, service_id := service_id,
    provider_id := provider_id, reviewer_id := reviewer_id,
    rating := rating, comment := comment }

/-- C9 amended: a duplicate review for an already-reviewed `booking_id`
is rejected with HTTP 500 (the unique-violation error surfaces through
the generic catch, not as a 409 Conflict) and changes nothing — in
particular the service's `average_rating` and `total_reviews` are
untouched; a successful submission appends the review and recomputes the
service's `average_rating` as `toFixed(1)` of (sum of all ratings /
count) and `total_reviews` as the count, both over ALL reviews of that
service after the insert. -/
theorem c9_amended_duplicate_500_and_recompute (db : DB)
    (reviewer_id booking_id service_id provider_id : Nat) (rating : ℚ)
    (comment : String) :
    (db.reviews.any (fun r => r.booking_id == booking_id) = true →
       submitReview db reviewer_id booking_id service_id provider_id rating
           comment
         = (db, ⟨500, "duplicate key value violates unique constraint"⟩)) ∧
    (db.reviews.any (fun r => r.booking_id == booking_id) = false →
       (submitReview db reviewer_id booking_id service_id provider_id rating
           comment).2.status = 201 ∧
       (submitReview db reviewer_id booking_id service_id provider_id rating
           comment).1.reviews
         = db.reviews ++
             [mkReview reviewer_id booking_id service_id provider_id rating
               comment] ∧
       ∀ sv : Service,
         db.services.find? (fun s => s.id == service_id) = some sv →
           (submitReview db reviewer_id booking_id service_id provider_id
               rating comment).1.services.find? (fun s => s.id == service_id)
             = some { sv with
                 average_rating := round1
                   ((((db.reviews ++
                         [mkReview reviewer_id booking_id service_id
                           provider_id rating comment]).filter
                       (fun r => r.service_id == service_id)).map
                       Review.rating).sum /
                    (((db.reviews ++
                         [mkReview reviewer_id booking_id service_id
                           provider_id rating comment]).filter
                       (fun r => r.service_id == service_id)).length : ℚ)),
                 total_reviews :=
                   ((db.reviews ++
                       [mkReview reviewer_id booking_id service_id provider_id
                         rating comment]).filter
                     (fun r => r.service_id == service_id)).length }) := by
  constructor
  · intro h
    simp [submitReview, h]
  · intro h
    refine ⟨by simp [submitReview, h], by simp [submitReview, h, mkReview], ?_⟩
    intro sv hsv
    have hid : sv.id = service_id := by simpa using List.find?_some hsv
    simp only [submitReview, h, Bool.false_eq_true, if_false, mkReview]
    rw [find?_services_update, hsv]
    simp [hid]

/-- A service with two reviews (ratings 5 and 3, bookings 1 and 2). -/
def dbC9w : DB :=
  { services := [{ id := 5, provider_id := 20, price := 30,
                   title := "Cleaning", average_rating := 4,
                   total_reviews := 2 }],
    reviews := [{ booking_id := 1, service_id := 5, provider_id := 20,
                  reviewer_id := 10, rating := 5, comment := "great" },
                { booking_id := 2, service_id := 5, provider_id := 20,
                  reviewer_id := 11, rating := 3, comment := "ok" }] }

/-- Witness for `c9_amended_duplicate_500_and_recompute`: a fresh review
of rating 4 on booking 3 lands 201 and the service fields become
average 4.0 over 3 reviews. -/
theorem c9_amended_witness :
    (submitReview dbC9w 12 3 5 20 4 "nice").2.status = 201 ∧
    (submitReview dbC9w 12 3 5 20 4 "nice").1.services.find?
        (fun s => s.id == 5)
      = some { id := 5, provider_id := 20, price := 30, title := "Cleaning",
               average_rating := 4, total_reviews := 3 } := by
  have h := (c9_amended_duplicate_500_and_recompute dbC9w 12 3 5 20 4
    "nice").2 (by rfl)
  have hfind := h.2.2
    { id := 5, provider_id := 20, price := 30, title := "Cleaning",
      average_rating := 4, total_reviews := 2 } (by rfl)
  refine ⟨h.1, ?_⟩
  rw [hfind]
  norm_num [dbC9w, mkReview, round1, round_ofNat, List.filter]

/-- C10 amended: the schedule query yields exactly one slot per booking
of the provider with status pending or confirmed (cancelled/completed
bookings contribute none); an hourly booking with a nonzero
`duration_hours = n` blocks its day from `scheduled_time` to
`scheduled_time + n` hours (clock time, wrapping at midnight) with the
fully-blocked flag false; an hourly booking whose `duration_hours` is
null or 0 blocks ONE hour (the `|| 1` default); any other pricing blocks
the whole day with no start/end. -/
theorem c10_amended_blocked_slots (db : DB) (pid : Nat) :
    (getBlockedSlots db pid).length
        = (db.bookings.filter (fun b => b.provider_id == pid &&
            (b.status == BookingStatus.confirmed ||
             b.status == BookingStatus.pending))).length ∧
    (∀ b ∈ db.bookings, b.provider_id = pid →
       (b.status = BookingStatus.pending ∨ b.status = BookingStatus.confirmed) →
       slotOfBooking b ∈ getBlockedSlots db pid) ∧
    (∀ b : Booking, b.pricing_type = some "hourly" →
       ∀ n : Nat, b.duration_hours = some n → n ≠ 0 →
         slotOfBooking b =
           ⟨b.scheduled_time.day, some b.scheduled_time.minute,
            some ((b.scheduled_time.minute + 60 * n) % 1440), false⟩) ∧
    (∀ b : Booking, b.pricing_type = some "hourly" →
       (b.duration_hours = none ∨ b.duration_hours = some 0) →
         slotOfBooking b =
           ⟨b.scheduled_time.day, some b.scheduled_time.minute,
            some ((b.scheduled_time.minute + 60 * 1) % 1440), false⟩) ∧
    (∀ b : Booking, b.pricing_type ≠ some "hourly" →
       slotOfBooking b = ⟨b.scheduled_time.day, none, none, true⟩) := by
  refine ⟨by simp [getBlockedSlots], ?_, ?_, ?_, ?_⟩
  · intro b hb hpid hst
    refine List.mem_map_of_mem _ (List.mem_filter.mpr ⟨hb, ?_⟩)
    rcases hst with h | h <;> simp [hpid, h]
  · intro b hp n hn hn0
    have hn0' : (n == 0) = false := by simpa using hn0
    simp [slotOfBooking, hp, effectiveDuration, hn, hn0']
  · intro b hp hd
    rcases hd with h | h <;> simp [slotOfBooking, hp, effectiveDuration, h]
  · intro b hp
    have hp' : (b.pricing_type == some "hourly") = false := by
      simpa using hp
    simp [slotOfBooking, hp']

/-- A provider-20 state with one confirmed 2-hour hourly booking at
14:00 on day 1 and one completed booking that must not contribute. -/
def dbC10w : DB :=
  { bookings := [{ id := 1, client_id := 10, provider_id := 20,
                   service_id := 5, scheduled_time := ⟨1, 840⟩,
                   location_details := "here", total_price := 50,
                   status := BookingStatus.confirmed,
                   client_confirmed := false, provider_confirmed := false,
                   duration_hours := some 2,
                   pricing_type := some "hourly" },
                 { id := 2, client_id := 10, provider_id := 20,
                   service_id := 5, scheduled_time := ⟨2, 600⟩,
                   location_details := "here", total_price := 50,
                   status := BookingStatus.completed,
                   client_confirmed := true, provider_confirmed := true,
                   duration_hours := some 2,
                   pricing_type := some "hourly" }] }

/-- Witness for `c10_amended_blocked_slots`: the confirmed 14:00 2-hour
hourly booking of `dbC10w` yields the slot 14:00–16:00 on day 1, and the
completed booking contributes nothing (one slot in total). -/
theorem c10_amended_witness :
    (⟨1, some 840, some 960, false⟩ : Slot) ∈ getBlockedSlots dbC10w 20 ∧
    (getBlockedSlots dbC10w 20).length = 1 := by
  have h := c10_amended_blocked_slots dbC10w 20
  have hmem := h.2.1
    { id := 1, client_id := 10, provider_id := 20, service_id := 5,
      scheduled_time := ⟨1, 840⟩, location_details := "here",
      total_price := 50, status := BookingStatus.confirmed,
      client_confirmed := false, provider_confirmed := false,
      duration_hours := some 2, pricing_type := some "hourly" }
    (by simp [dbC10w]) rfl (Or.inr rfl)
  have hshape := h.2.2.1
    { id := 1, client_id := 10, provider_id := 20, service_id := 5,
      scheduled_time := ⟨1, 840⟩, location_details := "here",
      total_price := 50, status := BookingStatus.confirmed,
      client_confirmed := false, provider_confirmed := false,
      duration_hours := some 2, pricing_type := some "hourly" }
    rfl 2 rfl (by norm_num)
  refine ⟨?_, ?_⟩
  · rw [hshape] at hmem
    exact hmem
  · rw [h.1]
    rfl

/-- C8: the `/bookings/all` registration on the bookings router carries
no middleware in either revision (no `authenticateToken`), and the
handler ignores the caller entirely: for any two callers the output is
identical, it contains exactly the rows of the `bookings` table (a
permutation — nothing filtered out), sorted newest-first by
`created_at`, and each row is joined with the client profile and the
service row matching the booking. -/
theorem c8_all_bookings_route_public_unfiltered :
    ((bookingRouterV1.find? (fun e =>
        e.method == "GET" && e.path == "/bookings/all")).map
        RouteEntry.middlewares = some [] ∧
     (bookingRouterV2.find? (fun e =>
        e.method == "GET" && e.path == "/bookings/all")).map
        RouteEntry.middlewares = some []) ∧
    (∀ (db : DB) (u v : Option Nat),
       handleAllBookings db u = handleAllBookings db v) ∧
    (∀ (db : DB) (u : Option Nat),
       ((handleAllBookings db u).map AllRow.booking).Perm db.bookings) ∧
    (∀ (db : DB) (u : Option Nat),
       List.Sorted createdDesc ((handleAllBookings db u).map AllRow.booking)) ∧
    (∀ (db : DB) (u : Option Nat), ∀ row ∈ handleAllBookings db u,
       row.client_profile =
           db.profiles.find? (fun p => p.id == row.booking.client_id) ∧
       row.service =
           db.services.find? (fun s => s.id == row.booking.service_id)) := by
  have key : ∀ (db : DB) (u : Option Nat),
      (handleAllBookings db u).map AllRow.booking
        = List.insertionSort createdDesc db.bookings := by
    intro db u
    simp only [handleAllBookings, List.map_map]
    rw [show (AllRow.booking ∘ joinAllRow db) = id from rfl, List.map_id]
  refine ⟨⟨by rfl, by rfl⟩, fun db u v => rfl, ?_, ?_, ?_⟩
  · intro db u
    rw [key]
    exact List.perm_insertionSort createdDesc db.bookings
  · intro db u
    rw [key]
    exact List.sorted_insertionSort createdDesc db.bookings
  · intro db u row hrow
    rcases List.mem_map.mp hrow with ⟨b, _, rfl⟩
    exact ⟨rfl, rfl⟩

/-- The newer of the two bookings in `dbC8`. -/
def bkC8new : Booking :=
  { id := 2, client_id := 10, provider_id := 20, service_id := 5,
    scheduled_time := ⟨2, 600⟩, location_details := "there",
    total_price := 80, status := BookingStatus.pending,
    client_confirmed := false, provider_confirmed := false,
    created_at := 9 }

/-- Two bookings of different ages with the joined profile and service
rows present. -/
def dbC8 : DB :=
  { bookings := [{ id := 1, client_id := 10, provider_id := 20,
                   service_id := 5, scheduled_time := ⟨1, 540⟩,
                   location_details := "here", total_price := 50,
                   status := BookingStatus.completed,
                   client_confirmed := true, provider_confirmed := true,
                   created_at := 4 }, bkC8new],
    profiles := [{ id := 10, full_name := "Asha Bell" }],
    services := [{ id := 5, provider_id := 20, price := 30,
                   title := "Cleaning" }] }

/-- Witness for `c8_all_bookings_route_public_unfiltered` at the
concrete state `dbC8`. -/
theorem c8_witness :
    handleAllBookings dbC8 (some 7) = handleAllBookings dbC8 none ∧
    (joinAllRow dbC8 bkC8new).client_profile
      = dbC8.profiles.find?
          (fun p => p.id == (joinAllRow dbC8 bkC8new).booking.client_id) := by
  have h := c8_all_bookings_route_public_unfiltered
  refine ⟨h.2.1 dbC8 (some 7) none, ?_⟩
  exact (h.2.2.2.2 dbC8 none (joinAllRow dbC8 bkC8new) (by decide)).1
